import Mathlib

/-!
# Mesh Region Classifier — verification development

Shallow embedding of the `make_selections` routines of the
smooth-layer-search repository:

* `cervix_inflation_EX_V2_original/make_selections.py`
  (coverage-percent policy, writes `surface_selections.txt` and
  `volume_selections.txt`);
* `cervix_inflation_EX_V2_original_dual_deformed_fine/make_selections_first_new.py`
  (excluded-extent policy, rescales the loaded points by 1000 in place);
* `test_single_job/make_selections.py`
  (extremal-line policy, rescales by 1000, writes `multigrid_selection.txt`).

Mesh coordinates are modelled as exact rationals.  The geometry-library
primitives the scripts call (`igl.boundary_facets`, `igl.facet_components`,
`igl.winding_number`, `meshio.read`) are external collaborators: their
results — the boundary triangle list `f`, the component id list `c` and the
winding-number list `w` — enter the embedding as inputs.
-/

namespace MeshSel

/-- A 3D point with rational coordinates (one row of a mesh point array). -/
structure Pt where
  x : ℚ
  y : ℚ
  z : ℚ
deriving DecidableEq, Repr

/-- A boundary triangle: three point indices (one row of `f`). -/
abbrev Tri := Nat × Nat × Nat

/-- A tetrahedral cell: four point indices (one row of `t`). -/
abbrev Tet := Nat × Nat × Nat × Nat

/-- Indexing a point list (numpy row access `v[i]`; indices produced by the
mesh loader are in range, so the default is never reached on real input). -/
def getPt (v : List Pt) (i : Nat) : Pt :=
  v.getD i ⟨0, 0, 0⟩

/-- `np.max` of a 1-D array (the scripts only apply it to nonempty arrays). -/
def listMax : List ℚ → ℚ
  | [] => 0
  | q :: qs => qs.foldl max q

/-- `np.min` of a 1-D array. -/
def listMin : List ℚ → ℚ
  | [] => 0
  | q :: qs => qs.foldl min q

/-- `np.argmax` over a coordinate of a point array: first index attaining
the maximum. -/
def argmaxBy (g : Pt → ℚ) (pts : List Pt) : Nat :=
  (pts.map g).findIdx fun q => decide (q = listMax (pts.map g))

/-- `np.argmin` over a coordinate of a point array: first index attaining
the minimum. -/
def argminBy (g : Pt → ℚ) (pts : List Pt) : Nat :=
  (pts.map g).findIdx fun q => decide (q = listMin (pts.map g))

/-- Barycenter of a triangle: `np.mean(v[f, :], axis=1)` for one row of `f`. -/
def triBary (v : List Pt) (tr : Tri) : Pt :=
  let a := getPt v tr.1
  let b := getPt v tr.2.1
  let cc := getPt v tr.2.2
  ⟨(a.x + b.x + cc.x) / 3, (a.y + b.y + cc.y) / 3, (a.z + b.z + cc.z) / 3⟩

/-- Barycenter of a tetrahedron: `np.mean(v[t, :], axis=1)` for one row of
`t`.  The winding numbers `w` fed to the embedding are those the external
`igl.winding_number` call returns at these points. -/
def tetBary (v : List Pt) (te : Tet) : Pt :=
  let a := getPt v te.1
  let b := getPt v te.2.1
  let cc := getPt v te.2.2.1
  let d := getPt v te.2.2.2
  ⟨(a.x + b.x + cc.x + d.x) / 4, (a.y + b.y + cc.y + d.y) / 4,
    (a.z + b.z + cc.z + d.z) / 4⟩

/-- In-place rescale `v *= 1000` applied to one point (excluded-extent and
extremal-line variants). -/
def scale1000 (p : Pt) : Pt :=
  ⟨1000 * p.x, 1000 * p.y, 1000 * p.z⟩

/-! ## Shared surface/volume file writer

All three scripts write the surface label file with the same three loops:
rows of `f` with component id 1 as label 2, then rows selected by the
Dirichlet mask as label 1, then rows with component id 0 and not selected
as label 3. -/

/-- One output line `f"{label} {i} {j} {k}"`. -/
def fmtLine (label i j k : Nat) : String :=
  toString label ++ " " ++ toString i ++ " " ++ toString j ++ " " ++ toString k

/-- The rows `f[c == 1]` (inner surface, written with label 2). -/
def innerTris (f : List Tri) (c : List Nat) : List Tri :=
  ((f.zip c).filter fun p => decide (p.2 = 1)).map Prod.fst

/-- The rows of `f` where the Dirichlet mask holds (written with label 1). -/
def dirichletTris (f : List Tri) (d : List Bool) : List Tri :=
  ((f.zip d).filter fun p => p.2).map Prod.fst

/-- The rows `np.where((c == 0) & ~dirichlet_selection)[0]` (outer surface,
written with label 3). -/
def outerTris (f : List Tri) (c : List Nat) (d : List Bool) : List Tri :=
  ((f.zip (c.zip d)).filter fun p => decide (p.2.1 = 0) && !p.2.2).map Prod.fst

/-- One `for`-loop over triangles appending formatted lines to the open
file (the file contents are the accumulated list of lines). -/
def writeLoop (buf : List String) (label : Nat) (items : List Tri) : List String :=
  items.foldl (fun b tr => b ++ [fmtLine label tr.1 tr.2.1 tr.2.2]) buf

/-- Contents of the surface label file: the three sequential write loops. -/
def surfaceLines (f : List Tri) (c : List Nat) (d : List Bool) : List String :=
  writeLoop (writeLoop (writeLoop [] 2 (innerTris f c)) 1 (dirichletTris f d))
    3 (outerTris f c d)

/-- `volume_selections = np.ones(t.shape[0]) * 2; volume_selections[w1 > 0.5] = 1`:
an array of length `nT` (the tetrahedron count), entry `i` equal to 1 when
the winding number at tetrahedron `i`'s barycenter exceeds 0.5, else 2. -/
def volume_selections (nT : Nat) (w : List ℚ) : List Nat :=
  (List.range nT).map fun i => if 1 / 2 < w.getD i 0 then 1 else 2

/-- Contents of the volume label file: one line `f"{i}"` per entry. -/
def volumeLines (nT : Nat) (w : List ℚ) : List String :=
  (volume_selections nT w).map toString

/-! ## Variant 1: coverage-percent policy
(`cervix_inflation_EX_V2_original/make_selections.py`) -/

/-- `coverage_percent = 0.5`. -/
def coverage_percent : ℚ := 1 / 2

/-- `max_x = p1_ori_CX[0]` where `p1_ori_CX = pts_ori_CX[np.argmax(pts[:, 0])]`. -/
def max_x (pts : List Pt) : ℚ :=
  (getPt pts (argmaxBy Pt.x pts)).x

/-- `min_x_cx = np.min(pts_ori_CX[:, 0])`. -/
def min_x_cx (pts : List Pt) : ℚ :=
  listMin (pts.map Pt.x)

/-- `total_length_x = max_x - min_x_cx`. -/
def total_length_x (pts : List Pt) : ℚ :=
  max_x pts - min_x_cx pts

/-- `coverage_length = coverage_percent * total_length_x`. -/
def coverage_length (pts : List Pt) : ℚ :=
  coverage_percent * total_length_x pts

/-- `coverage_boundary = max_x - coverage_length`. -/
def coverage_boundary (pts : List Pt) : ℚ :=
  max_x pts - coverage_length pts

/-- `y_center = (np.max(pts[:, 1]) + np.min(pts[:, 1])) / 2`. -/
def y_center (pts : List Pt) : ℚ :=
  (listMax (pts.map Pt.y) + listMin (pts.map Pt.y)) / 2

/-- `y_range = np.max(pts[:, 1]) - np.min(pts[:, 1])`. -/
def y_range (pts : List Pt) : ℚ :=
  listMax (pts.map Pt.y) - listMin (pts.map Pt.y)

/-- `y_tolerance = 0.6 * y_range`. -/
def y_tolerance (pts : List Pt) : ℚ :=
  (3 / 5) * y_range pts

/-- The coverage-percent Dirichlet test for one triangle barycenter:
`(bx >= coverage_boundary) & (bx <= max_x) & (abs(by - y_center) <= y_tolerance)`.
Note the source computes `coverage_length` by a multiplication; no division
by the x-extent occurs anywhere in this policy, and no exception is raised
on a degenerate (zero x-range) reference surface. -/
def coverageDirichlet (pts : List Pt) (bc : Pt) : Bool :=
  decide (coverage_boundary pts ≤ bc.x) && decide (bc.x ≤ max_x pts) &&
    decide (|bc.y - y_center pts| ≤ y_tolerance pts)

/-- `dirichlet_selection` for the coverage-percent script: the mask over
the triangle barycenters. -/
def coverageMask (v : List Pt) (ptsCX : List Pt) (f : List Tri) : List Bool :=
  f.map fun tr => coverageDirichlet ptsCX (triBary v tr)

/-- State of one invocation at exit: the loaded volumetric points and
reference-surface points as they stand when the script returns, plus the
two written files. -/
structure RunResult where
  points_after : List Pt
  cx_after : List Pt
  surface : List String
  volume : List String
deriving DecidableEq, Repr

/-- The whole coverage-percent `make_selections` invocation.  `v`/`t` are
the loaded volumetric points and tetrahedra, `f`/`c` the external
boundary-facet and component results, `ptsCX` the loaded reference surface
points and `w` the external winding numbers at the tetrahedron barycenters.
This variant never writes to `v` or `ptsCX`. -/
def runCoverage (v : List Pt) (t : List Tet) (f : List Tri) (c : List Nat)
    (ptsCX : List Pt) (w : List ℚ) : RunResult :=
  let d := coverageMask v ptsCX f
  { points_after := v
    cx_after := ptsCX
    surface := surfaceLines f c d
    volume := volumeLines t.length w }

/-! ## Variant 2: excluded-extent policy
(`cervix_inflation_EX_V2_original_dual_deformed_fine/make_selections_first_new.py`)

This script first rescales the loaded volumetric points in place
(`v *= 1000`), masks out all points with `x < cx_x_min` and, when that
masked set is nonempty, selects as Dirichlet the triangles whose barycenter
x-coordinate exceeds `x_max_without_cx`, the largest x among the masked
points.  When the masked set is empty, the `else` branch never assigns
`x_max_without_cx`, so evaluating `dirichlet_selection` raises an
`UnboundLocalError` before either output file is opened; this dynamic
failure is embedded as the `Except.error` branch below. -/

/-- `cx_x_min = np.min(pts_ori_CX[:, 0])`. -/
def cx_x_min (pts : List Pt) : ℚ :=
  listMin (pts.map Pt.x)

/-- The rescaled volumetric points with `x < cx_x_min`
(`volumetric_without_cx = v[v[:, 0] < cx_x_min]`). -/
def volumetric_without_cx (v1000 : List Pt) (pts : List Pt) : List Pt :=
  v1000.filter fun p => decide (p.x < cx_x_min pts)

/-- `x_max_without_cx = np.max(volumetric_without_cx[:, 0])` (meaningful
only when the masked set is nonempty). -/
def x_max_without_cx (v1000 : List Pt) (pts : List Pt) : ℚ :=
  listMax ((volumetric_without_cx v1000 pts).map Pt.x)

/-- `dirichlet_selection = triangle_barycenters[:, 0] > x_max_without_cx`
for the excluded-extent script, over the rescaled points. -/
def excludedMask (v1000 : List Pt) (ptsCX : List Pt) (f : List Tri) : List Bool :=
  f.map fun tr => decide (x_max_without_cx v1000 ptsCX < (triBary v1000 tr).x)

/-- The Python error message raised when the exclusion mask is empty. -/
def unboundMsg : String :=
  "UnboundLocalError: local variable x_max_without_cx referenced before assignment"

/-- The whole excluded-extent `make_selections` invocation.  The loaded
volumetric points are rescaled in place by 1000 before any further use;
the reference surface is untouched.  When no rescaled point lies strictly
below the reference surface's minimum x, the run aborts with an
unbound-variable error before writing any file. -/
def runExcluded (v : List Pt) (t : List Tet) (f : List Tri) (c : List Nat)
    (ptsCX : List Pt) (w : List ℚ) : Except String RunResult :=
  let v1000 := v.map scale1000
  if (volumetric_without_cx v1000 ptsCX).length > 0 then
    let d := excludedMask v1000 ptsCX f
    Except.ok
      { points_after := v1000
        cx_after := ptsCX
        surface := surfaceLines f c d
        volume := volumeLines t.length w }
  else
    Except.error unboundMsg

/-- Modelled from the spec: the excluded-extent Dirichlet test as the spec
words it — the barycenter x-coordinate "exceeds the maximum x-coordinate of
all volumetric-mesh points lying outside the reference surface's x-range",
i.e. the mask keeps points with `x < cx_x_min` OR `x > cx_x_max`.  Kept for
comparison with the source embedding `excludedMask`, which masks only on
`x < cx_x_min`. -/
def specExcludedDirichlet (v1000 : List Pt) (pts : List Pt) (bc : Pt) : Bool :=
  let lo := listMin (pts.map Pt.x)
  let hi := listMax (pts.map Pt.x)
  let outside := v1000.filter fun p => decide (p.x < lo) || decide (hi < p.x)
  decide (listMax (outside.map Pt.x) < bc.x)

/-! ## Variant 3: extremal-line policy
(`test_single_job/make_selections.py`) -/

/-- `y_at_max_x = p1_ori_CX[1]`, the y-coordinate of the point of maximum x. -/
def y_at_max_x (pts : List Pt) : ℚ :=
  (getPt pts (argmaxBy Pt.x pts)).y

/-- `min_y = p2_ori_CX[1]`, the minimum y (y of the argmin-y point). -/
def min_y (pts : List Pt) : ℚ :=
  (getPt pts (argminBy Pt.y pts)).y

/-- `x_at_min_y = p2_ori_CX[0]`, the x-coordinate of the point of minimum y. -/
def x_at_min_y (pts : List Pt) : ℚ :=
  (getPt pts (argminBy Pt.y pts)).x

/-- `x_at_max_y = p3_ori_CX[0]`, the x-coordinate of the point of maximum y. -/
def x_at_max_y (pts : List Pt) : ℚ :=
  (getPt pts (argmaxBy Pt.y pts)).x

/-- `lower_x = x_at_max_y + (max_x - x_at_max_y) / 2.0`. -/
def lower_x (pts : List Pt) : ℚ :=
  x_at_max_y pts + (max_x pts - x_at_max_y pts) / 2

/-- `upper_x = math.ceil(max_x)`. -/
def upper_x (pts : List Pt) : ℤ :=
  ⌈max_x pts⌉

/-- `slope = (max_x - x_at_min_y) / (y_at_max_x - min_y)`.  Exact rational
division; the theorems about this variant assume `y_at_max_x ≠ min_y`, the
regime in which the float computation is finite and this model is faithful. -/
def slope (pts : List Pt) : ℚ :=
  (max_x pts - x_at_min_y pts) / (y_at_max_x pts - min_y pts)

/-- IEEE-754 model of the numpy comparison `num / den >= s` for a finite
`s`: a zero denominator raises no exception; `num / 0` is `+inf` (compares
true) for positive `num`, `-inf` (compares false) for negative `num`, and
`NaN` (compares false) for `num = 0`.  A nonzero denominator gives the
exact quotient. -/
def divGE (num den s : ℚ) : Bool :=
  if den = 0 then decide (0 < num) else decide (s ≤ num / den)

/-- The extremal-line Dirichlet test for one triangle barycenter:
`(bx >= lower_x) & (bx <= upper_x) & ((bx - x_at_min_y) / (by - min_y) >= slope)`,
the unguarded division modelled by `divGE`. -/
def extremalDirichlet (pts : List Pt) (bc : Pt) : Bool :=
  decide (lower_x pts ≤ bc.x) && decide (bc.x ≤ ((upper_x pts : ℤ) : ℚ)) &&
    divGE (bc.x - x_at_min_y pts) (bc.y - min_y pts) (slope pts)

/-- `dirichlet_selection` for the extremal-line script, over the rescaled
points. -/
def extremalMask (v1000 : List Pt) (ptsCX : List Pt) (f : List Tri) : List Bool :=
  f.map fun tr => extremalDirichlet ptsCX (triBary v1000 tr)

/-- Exit state of one extremal-line invocation: final contents of the two
loaded point arrays, the single surface file (`multigrid_selection.txt`),
and the returned count `np.unique(f[c == 1].flatten()).shape[0]`. -/
structure RunResultM where
  points_after : List Pt
  cx_after : List Pt
  surface : List String
  ret : Nat
deriving DecidableEq, Repr

/-- The whole extremal-line `make_selections` invocation.  The loaded
volumetric points are rescaled in place by 1000; the reference surface is
untouched; no volume file is written. -/
def runExtremal (v : List Pt) (f : List Tri) (c : List Nat)
    (ptsCX : List Pt) : RunResultM :=
  let v1000 := v.map scale1000
  let d := extremalMask v1000 ptsCX f
  { points_after := v1000
    cx_after := ptsCX
    surface := surfaceLines f c d
    ret := ((innerTris f c).flatMap fun tr => [tr.1, tr.2.1, tr.2.2]).dedup.length }

/-! ## Concrete evaluation inputs

Small meshes used to evaluate the embedded classifiers at explicit
inputs. -/

/-- Reference surface spanning x in `[0, 10]`, y in `[0, 10]`. -/
def cxC1 : List Pt := [⟨0, 0, 0⟩, ⟨10, 10, 0⟩]

/-- One volumetric point placed so the single boundary triangle below has
barycenter `(6, 5, 0)` — inside the coverage band. -/
def vC1 : List Pt := [⟨6, 5, 0⟩]

/-- One boundary triangle (all vertices at point 0). -/
def fC1 : List Tri := [((0, 0, 0) : Tri)]

/-- The boundary triangle belongs to connected component 1 (inner surface). -/
def cC1 : List Nat := [1]

/-- Volumetric point putting the triangle barycenter at `(0, 0, 0)`,
outside the coverage band. -/
def vC1b : List Pt := [⟨0, 0, 0⟩]

/-- Component id 2: the component-labeling step may return ids beyond 0/1. -/
def cC1b : List Nat := [2]

/-- Degenerate reference surface: every point at `x = 7` (zero x-range). -/
def cxDeg : List Pt := [⟨7, 0, 0⟩, ⟨7, 3, 0⟩]

/-- Volumetric point for the degenerate-surface run (barycenter at
`(7, 3/2, 0)`). -/
def vDeg : List Pt := [⟨7, 3 / 2, 0⟩]

/-- One tetrahedron for the degenerate-surface run. -/
def tDeg : List Tet := [((0, 0, 0, 0) : Tet)]

/-- Winding number 1 at the tetrahedron barycenter (inside). -/
def wDeg : List ℚ := [1]

/-- Reference surface spanning x in `[0, 10]` with y-center 5 for the
coverage-percent example. -/
def cxC3 : List Pt := [⟨0, 2, 0⟩, ⟨10, 8, 0⟩]

/-- Volumetric points for the excluded-extent runs: after the in-place
rescale they sit at `x = -1000` (below the reference minimum) and
`x = 5000` (above the reference maximum). -/
def vC5 : List Pt := [⟨-1, 0, 0⟩, ⟨5, 0, 0⟩]

/-- Reference surface with x-range `[0, 1]` for the excluded-extent runs. -/
def cxC5 : List Pt := [⟨0, 0, 0⟩, ⟨1, 0, 0⟩]

/-- One boundary triangle with barycenter at the rescaled point 1,
`(5000, 0, 0)`. -/
def fC5 : List Tri := [((1, 1, 1) : Tri)]

/-- Its component id. -/
def cC5 : List Nat := [0]

/-- Reference surface for the extremal-line policy: point of maximum x is
`(10, 2, 0)`, point of minimum y is `(0, 0, 0)`, point of maximum y is
`(4, 6, 0)`; hence `lower_x = 7`, `upper_x = 10`, `slope = 5`. -/
def cxE : List Pt := [⟨10, 2, 0⟩, ⟨0, 0, 0⟩, ⟨4, 6, 0⟩]

/-- Triangles, components and mask for the surface-file format example. -/
def fC7 : List Tri := [((0, 1, 2) : Tri), ((3, 4, 5) : Tri)]

/-- Component ids for `fC7`. -/
def cC7 : List Nat := [1, 0]

/-- Dirichlet mask for `fC7`. -/
def dC7 : List Bool := [false, true]

/-- A volumetric point that the rescale moves: `(1, 2, 3) ↦ (1000, 2000, 3000)`. -/
def vC8 : List Pt := [⟨1, 2, 3⟩]

/-- Volumetric point whose rescaled x-coordinate (1000) is not below the
reference minimum (0): the exclusion mask comes out empty. -/
def vC9 : List Pt := [⟨1, 0, 0⟩]

/-- Reference surface for the empty-exclusion-mask run. -/
def cxC9 : List Pt := [⟨0, 0, 0⟩]

/-- Winding numbers for a three-tetrahedron volume-label example. -/
def wC4 : List ℚ := [1, 0, 3 / 4]

/-! ## Helper lemmas -/

theorem foldl_pick_mem (g : ℚ → ℚ → ℚ) (hg : ∀ a b, g a b = a ∨ g a b = b)
    (qs : List ℚ) (q : ℚ) : qs.foldl g q = q ∨ qs.foldl g q ∈ qs := by
  induction qs generalizing q with
  | nil => exact Or.inl rfl
  | cons a l ih =>
    rcases ih (g q a) with h | h
    · rcases hg q a with hm | hm
      · exact Or.inl (by rw [List.foldl_cons, h, hm])
      · exact Or.inr (by rw [List.foldl_cons, h, hm]; exact List.mem_cons_self a l)
    · exact Or.inr (List.mem_cons_of_mem a h)

theorem listMax_mem (l : List ℚ) (h : l ≠ []) : listMax l ∈ l := by
  match l, h with
  | q :: qs, _ =>
    rcases foldl_pick_mem max max_choice qs q with h1 | h1
    · rw [show listMax (q :: qs) = qs.foldl max q from rfl, h1]
      exact List.mem_cons_self q qs
    · exact List.mem_cons_of_mem q h1

theorem getPt_findIdx (g : Pt → ℚ) (p : ℚ → Bool) (pts : List Pt)
    (h : ∃ a ∈ pts, p (g a) = true) :
    p (g (getPt pts ((pts.map g).findIdx p))) = true := by
  induction pts with
  | nil => simp at h
  | cons a l ih =>
    by_cases hpa : p (g a) = true
    · simp [getPt, List.findIdx_cons, hpa]
    · have hpa' : p (g a) = false := by
        cases hb : p (g a) with
        | true => exact absurd hb hpa
        | false => rfl
      rcases h with ⟨b, hb, hpb⟩
      rcases List.mem_cons.mp hb with rfl | hbl
      · exact absurd hpb hpa
      · have hex : ∃ x ∈ l, p (g x) = true := ⟨b, hbl, hpb⟩
        simpa [getPt, List.findIdx_cons, hpa'] using ih hex

theorem max_x_eq (pts : List Pt) (h : pts ≠ []) :
    max_x pts = listMax (pts.map Pt.x) := by
  have hne : pts.map Pt.x ≠ [] := by
    cases pts with
    | nil => exact absurd rfl h
    | cons a l => simp
  rcases List.mem_map.mp (listMax_mem _ hne) with ⟨a, ha, hax⟩
  have hex : ∃ b ∈ pts,
      (fun q => decide (q = listMax (pts.map Pt.x))) (Pt.x b) = true :=
    ⟨a, ha, by simpa using hax⟩
  have hfnd := getPt_findIdx Pt.x
    (fun q => decide (q = listMax (pts.map Pt.x))) pts hex
  simpa [max_x, argmaxBy] using hfnd

theorem writeLoop_eq (label : Nat) (items : List Tri) (buf : List String) :
    writeLoop buf label items =
      buf ++ items.map fun tr => fmtLine label tr.1 tr.2.1 tr.2.2 := by
  induction items generalizing buf with
  | nil => simp [writeLoop]
  | cons a l ih =>
    show writeLoop (buf ++ [fmtLine label a.1 a.2.1 a.2.2]) label l = _
    rw [ih]
    simp

theorem surfaceLines_eq (f : List Tri) (c : List Nat) (d : List Bool) :
    surfaceLines f c d =
      ((innerTris f c).map fun tr => fmtLine 2 tr.1 tr.2.1 tr.2.2) ++
      ((dirichletTris f d).map fun tr => fmtLine 1 tr.1 tr.2.1 tr.2.2) ++
      ((outerTris f c d).map fun tr => fmtLine 3 tr.1 tr.2.1 tr.2.2) := by
  simp [surfaceLines, writeLoop_eq]

theorem dirichletTris_map (f : List Tri) (p : Tri → Bool) :
    dirichletTris f (f.map p) = f.filter p := by
  induction f with
  | nil => rfl
  | cons a l ih =>
    by_cases hp : p a = true <;>
      simp [dirichletTris, List.filter_cons, hp] at ih ⊢ <;> exact ih

theorem count_one_two (l : List Nat) (h : ∀ x ∈ l, x = 1 ∨ x = 2) :
    l.count 1 + l.count 2 = l.length := by
  induction l with
  | nil => rfl
  | cons a tl ih =>
    have ih' := ih fun x hx => h x (List.mem_cons_of_mem _ hx)
    rcases h a (List.mem_cons_self _ _) with rfl | rfl <;>
      simp [List.count_cons, ih'] <;> omega

theorem map_eq_self_iff_fix (g : Pt → Pt) (l : List Pt) :
    l.map g = l ↔ ∀ a ∈ l, g a = a := by
  induction l with
  | nil => simp
  | cons a tl ih => simp [ih]

theorem scale1000_fix (q : Pt) : scale1000 q = q ↔ q = ⟨0, 0, 0⟩ := by
  cases q with
  | mk x y z =>
    simp only [scale1000, Pt.mk.injEq]
    constructor
    · rintro ⟨hx, hy, hz⟩
      exact ⟨by linarith, by linarith, by linarith⟩
    · rintro ⟨rfl, rfl, rfl⟩
      norm_num

theorem volume_selections_getD (nT : Nat) (w : List ℚ) (i : Nat) (h : i < nT) :
    (volume_selections nT w).getD i 0 = if 1 / 2 < w.getD i 0 then 1 else 2 := by
  simp [volume_selections, List.getD_eq_getElem?_getD, List.getElem?_map,
    List.getElem?_range h]

/-! ## Claims -/

/-- C1, counterexample.  The claim "every boundary triangle appears in
exactly one of the three label groups; no triangle is written both as
inner (label 2) and as Dirichlet (label 1)" is false: the Dirichlet mask
is purely geometric, so a component-1 triangle whose barycenter passes the
coverage test is written both with label 2 and with label 1.  Concretely,
for the reference surface `cxC1` and a single inner (component-1) boundary
triangle with barycenter `(6, 5, 0)`, the surface file holds the same
triangle twice, and the combined triple multiset has a duplicate.  A
second input, with component id 2, shows a triangle omitted from all three
groups. -/
theorem c1_counterexample :
    (runCoverage vC1 [] fC1 cC1 cxC1 []).surface =
      [fmtLine 2 0 0 0, fmtLine 1 0 0 0] ∧
    (innerTris fC1 cC1 ++ dirichletTris fC1 (coverageMask vC1 cxC1 fC1) ++
        outerTris fC1 cC1 (coverageMask vC1 cxC1 fC1)).count ((0, 0, 0) : Tri) = 2 ∧
    fC1.count ((0, 0, 0) : Tri) = 1 ∧
    (innerTris fC1 cC1b ++ dirichletTris fC1 (coverageMask vC1b cxC1 fC1) ++
        outerTris fC1 cC1b (coverageMask vC1b cxC1 fC1)).count ((0, 0, 0) : Tri) = 0 := by
  have hmask : coverageMask vC1 cxC1 fC1 = [true] := by
    norm_num [coverageMask, coverageDirichlet, coverage_boundary, coverage_length,
      total_length_x, coverage_percent, max_x, min_x_cx, y_center, y_tolerance,
      y_range, argmaxBy, getPt, listMax, listMin, triBary, vC1, cxC1, fC1,
      List.findIdx_cons, Bool.and_eq_true, decide_eq_true_eq]
  have hmaskb : coverageMask vC1b cxC1 fC1 = [false] := by
    norm_num [coverageMask, coverageDirichlet, coverage_boundary, coverage_length,
      total_length_x, coverage_percent, max_x, min_x_cx, y_center, y_tolerance,
      y_range, argmaxBy, getPt, listMax, listMin, triBary, vC1b, cxC1, fC1,
      List.findIdx_cons, Bool.and_eq_true, decide_eq_true_eq]
  refine ⟨?_, ?_, by decide, ?_⟩
  · show surfaceLines fC1 cC1 (coverageMask vC1 cxC1 fC1) = _
    rw [hmask]
    simp [surfaceLines, writeLoop, innerTris, dirichletTris, outerTris,
      fC1, cC1, List.filter_cons]
  · rw [hmask]; decide
  · rw [hmaskb]; decide

/-- C1, amended: for any Dirichlet mask (hence any threshold policy), IF
every component id is 0 or 1 and no component-1 triangle is selected by
the mask, THEN the three label groups partition the boundary triangle set:
their concatenation is a permutation of `f` (equal as unordered multisets,
no duplicates, no omissions). -/
theorem c1_amended (f : List Tri) (c : List Nat) (d : List Bool)
    (hc : c.length = f.length) (hd : d.length = f.length)
    (h01 : ∀ p ∈ f.zip (c.zip d), p.2.1 = 0 ∨ p.2.1 = 1)
    (hdis : ∀ p ∈ f.zip (c.zip d), p.2.1 = 1 → p.2.2 = false) :
    (innerTris f c ++ dirichletTris f d ++ outerTris f c d).Perm f := by
  induction f generalizing c d with
  | nil => simp [innerTris, dirichletTris, outerTris]
  | cons a l ih =>
    cases c with
    | nil => simp at hc
    | cons x c' =>
      cases d with
      | nil => simp at hd
      | cons b d' =>
        have hmem : (a, x, b) ∈ (a :: l).zip ((x :: c').zip (b :: d')) :=
          List.mem_cons_self _ _
        have hc' : c'.length = l.length := by simpa using hc
        have hd' : d'.length = l.length := by simpa using hd
        have h01' : ∀ p ∈ l.zip (c'.zip d'), p.2.1 = 0 ∨ p.2.1 = 1 :=
          fun p hp => h01 p (List.mem_cons_of_mem _ hp)
        have hdis' : ∀ p ∈ l.zip (c'.zip d'), p.2.1 = 1 → p.2.2 = false :=
          fun p hp => hdis p (List.mem_cons_of_mem _ hp)
        have ihl := ih c' d' hc' hd' h01' hdis'
        rcases h01 (a, x, b) hmem with hx | hx
        · subst hx
          cases b with
          | true =>
            have key : innerTris (a :: l) (0 :: c') ++
                dirichletTris (a :: l) (true :: d') ++
                outerTris (a :: l) (0 :: c') (true :: d') =
                innerTris l c' ++
                  a :: (dirichletTris l d' ++ outerTris l c' d') := by
              simp [innerTris, dirichletTris, outerTris, List.filter_cons,
                List.append_assoc]
            rw [key]
            refine List.Perm.trans List.perm_middle (List.Perm.cons a ?_)
            rw [← List.append_assoc]
            exact ihl
          | false =>
            have key : innerTris (a :: l) (0 :: c') ++
                dirichletTris (a :: l) (false :: d') ++
                outerTris (a :: l) (0 :: c') (false :: d') =
                (innerTris l c' ++ dirichletTris l d') ++
                  a :: outerTris l c' d' := by
              simp [innerTris, dirichletTris, outerTris, List.filter_cons]
            rw [key]
            exact List.Perm.trans List.perm_middle (List.Perm.cons a ihl)
        · subst hx
          have hb : b = false := hdis (a, 1, b) hmem rfl
          subst hb
          have key : innerTris (a :: l) (1 :: c') ++
              dirichletTris (a :: l) (false :: d') ++
              outerTris (a :: l) (1 :: c') (false :: d') =
              a :: (innerTris l c' ++ dirichletTris l d' ++
                outerTris l c' d') := by
            simp [innerTris, dirichletTris, outerTris, List.filter_cons,
              List.append_assoc]
          rw [key]
          exact List.Perm.cons a ihl

/-- C1 witness: a two-triangle input satisfying the amendment's hypotheses,
where the three groups are a permutation of the boundary set. -/
theorem c1_amended_witness :
    (innerTris fC7 cC7 ++ dirichletTris fC7 dC7 ++ outerTris fC7 cC7 dC7).Perm fC7 :=
  c1_amended fC7 cC7 dC7 (by decide) (by decide) (by decide) (by decide)

/-- C2, counterexample.  The claim "a degenerate (zero x-range) reference
surface makes the coverage-percent policy raise a descriptive error
instead of producing output" is false: the policy contains no division
(`coverage_length` is a multiplication), so on `cxDeg` (all points at
`x = 7`) the classifier raises nothing and produces ordinary output. -/
theorem c2_counterexample :
    listMax (cxDeg.map Pt.x) = listMin (cxDeg.map Pt.x) ∧
    runCoverage vDeg tDeg [((0, 0, 0) : Tri)] [0] cxDeg wDeg =
      { points_after := vDeg, cx_after := cxDeg,
        surface := [fmtLine 1 0 0 0], volume := ["1"] } := by
  have hmask : coverageMask vDeg cxDeg [((0, 0, 0) : Tri)] = [true] := by
    norm_num [coverageMask, coverageDirichlet, coverage_boundary, coverage_length,
      total_length_x, coverage_percent, max_x, min_x_cx, y_center, y_tolerance,
      y_range, argmaxBy, getPt, listMax, listMin, triBary, vDeg, cxDeg,
      List.findIdx_cons, Bool.and_eq_true, decide_eq_true_eq]
  have h1s : toString (1 : Nat) = "1" := rfl
  have hvol : volumeLines tDeg.length wDeg = ["1"] := by
    norm_num [volumeLines, volume_selections, tDeg, wDeg, List.range_succ, h1s]
  constructor
  · norm_num [cxDeg, listMax, listMin]
  · simp only [runCoverage]
    rw [hmask, hvol]
    simp [surfaceLines, writeLoop, innerTris, dirichletTris, outerTris,
      List.filter_cons]

/-- C2, amended.  With a degenerate (zero x-range) reference surface the
coverage-percent policy raises no error and stays well defined: the
coverage boundary collapses onto the maximum x, so a barycenter is
selected exactly when its x-coordinate equals that maximum and its
y-coordinate lies in the tolerance band. -/
theorem c2_amended (pts : List Pt) (bc : Pt) (hne : pts ≠ [])
    (hdeg : listMax (pts.map Pt.x) = listMin (pts.map Pt.x)) :
    coverageDirichlet pts bc = true ↔
      (bc.x = listMax (pts.map Pt.x) ∧
        |bc.y - y_center pts| ≤ y_tolerance pts) := by
  have hmax := max_x_eq pts hne
  simp only [coverageDirichlet, Bool.and_eq_true, decide_eq_true_eq,
    coverage_boundary, coverage_length, total_length_x, coverage_percent,
    min_x_cx, hmax, ← hdeg]
  constructor
  · rintro ⟨⟨h1, h2⟩, h3⟩
    exact ⟨le_antisymm h2 (by linarith), h3⟩
  · rintro ⟨h1, h2⟩
    exact ⟨⟨by linarith, by linarith⟩, h2⟩

/-- C2 witness: for the concrete degenerate surface `cxDeg`, the barycenter
at the collapsed boundary is selected. -/
theorem c2_amended_witness : coverageDirichlet cxDeg ⟨7, 3 / 2, 0⟩ = true :=
  (c2_amended cxDeg ⟨7, 3 / 2, 0⟩ (by simp [cxDeg])
      (by norm_num [cxDeg, listMax, listMin])).mpr
    (by norm_num [cxDeg, listMax, listMin, y_center, y_tolerance, y_range])

/-- C3: under the coverage-percent policy a barycenter is selected iff its
x-coordinate lies within `coverage_percent` of the reference surface's
total x-extent from the maximum x (and not beyond the maximum), and its
y-coordinate lies within the tolerance band around the y-center. -/
theorem c3_coverage_iff (pts : List Pt) (bc : Pt) (hne : pts ≠ []) :
    coverageDirichlet pts bc = true ↔
      (listMax (pts.map Pt.x) - bc.x ≤
          coverage_percent * (listMax (pts.map Pt.x) - listMin (pts.map Pt.x)) ∧
        bc.x ≤ listMax (pts.map Pt.x) ∧
        |bc.y - y_center pts| ≤ y_tolerance pts) := by
  have hmax := max_x_eq pts hne
  simp only [coverageDirichlet, Bool.and_eq_true, decide_eq_true_eq,
    coverage_boundary, coverage_length, total_length_x, min_x_cx, hmax]
  constructor
  · rintro ⟨⟨h1, h2⟩, h3⟩
    exact ⟨by linarith, h2, h3⟩
  · rintro ⟨h1, h2, h3⟩
    exact ⟨⟨by linarith, h2⟩, h3⟩

/-- C3 witness: for the reference surface `cxC3` spanning x in `[0, 10]`
(coverage boundary `5`), the barycenter at `x = 6` inside the y-band is
selected and the one at `x = 4` is not. -/
theorem c3_coverage_iff_witness :
    coverageDirichlet cxC3 ⟨6, 5, 0⟩ = true ∧
    coverageDirichlet cxC3 ⟨4, 5, 0⟩ = false :=
  ⟨(c3_coverage_iff cxC3 ⟨6, 5, 0⟩ (by simp [cxC3])).mpr
      (by norm_num [cxC3, listMax, listMin, coverage_percent, y_center,
        y_tolerance, y_range]),
    by norm_num [coverageDirichlet, coverage_boundary, coverage_length,
      total_length_x, coverage_percent, max_x, min_x_cx, y_center, y_tolerance,
      y_range, argmaxBy, getPt, listMax, listMin, cxC3, List.findIdx_cons,
      Bool.and_eq_true, decide_eq_true_eq]⟩

/-- C4: the volume label array holds one entry per tetrahedron; an entry
is 1 exactly when the winding number at that tetrahedron's barycenter
exceeds 0.5 and is 2 otherwise; the volume file has one line per
tetrahedron and the inside count plus the outside count equals the total. -/
theorem c4_volume_labels (nT : Nat) (w : List ℚ) :
    (volumeLines nT w).length = nT ∧
    (volume_selections nT w).length = nT ∧
    (∀ i, i < nT →
      ((volume_selections nT w).getD i 0 = 1 ↔ 1 / 2 < w.getD i 0)) ∧
    (∀ x ∈ volume_selections nT w, x = 1 ∨ x = 2) ∧
    (∀ s ∈ volumeLines nT w, s = "1" ∨ s = "2") ∧
    (volume_selections nT w).count 1 + (volume_selections nT w).count 2 = nT := by
  have hlen : (volume_selections nT w).length = nT := by
    simp [volume_selections]
  have hmem : ∀ x ∈ volume_selections nT w, x = 1 ∨ x = 2 := by
    intro x hx
    rcases List.mem_map.mp hx with ⟨i, _, rfl⟩
    by_cases h : 1 / 2 < w.getD i 0
    · left; rw [if_pos h]
    · right; rw [if_neg h]
  refine ⟨by simp [volumeLines, hlen], hlen, ?_, hmem, ?_, ?_⟩
  · intro i hi
    rw [volume_selections_getD nT w i hi]
    by_cases h : 1 / 2 < w.getD i 0 <;> simp [h]
  · intro s hs
    rcases List.mem_map.mp hs with ⟨x, hx, rfl⟩
    rcases hmem x hx with rfl | rfl
    · exact Or.inl rfl
    · exact Or.inr rfl
  · rw [count_one_two _ hmem, hlen]

/-- C4 witness: three tetrahedra with winding numbers `1, 0, 3/4` give
three lines, labels `1, 2, 1`. -/
theorem c4_volume_labels_witness :
    (volumeLines 3 wC4).length = 3 ∧
    ((volume_selections 3 wC4).getD 0 0 = 1 ↔ 1 / 2 < wC4.getD 0 0) ∧
    (volume_selections 3 wC4).count 1 + (volume_selections 3 wC4).count 2 = 3 :=
  ⟨(c4_volume_labels 3 wC4).1,
    (c4_volume_labels 3 wC4).2.2.1 0 (by norm_num),
    (c4_volume_labels 3 wC4).2.2.2.2.2⟩

/-- C5, counterexample.  The claim "a triangle is selected as Dirichlet iff
its barycenter x exceeds the maximum x over the volumetric points lying
outside the reference surface's x-range" is false: the code masks only on
`x < cx_x_min`, ignoring points beyond the maximum.  With rescaled
volumetric points at `x = -1000` and `x = 5000` and a reference x-range
`[0, 1]`, the code computes `x_max_without_cx = -1000` and labels the
triangle with barycenter `x = 5000` as Dirichlet, while the spec-worded
predicate (maximum over all points outside `[0, 1]`, which is `5000`)
rejects it. -/
theorem c5_counterexample :
    runExcluded vC5 [] fC5 cC5 cxC5 [] =
      Except.ok { points_after := vC5.map scale1000, cx_after := cxC5,
                  surface := [fmtLine 1 1 1 1], volume := [] } ∧
    specExcludedDirichlet (vC5.map scale1000) cxC5
      (triBary (vC5.map scale1000) ((1, 1, 1) : Tri)) = false := by
  have hb : triBary (vC5.map scale1000) ((1, 1, 1) : Tri) = ⟨5000, 0, 0⟩ := by
    norm_num [triBary, getPt, vC5, scale1000]
  have hxm : x_max_without_cx (vC5.map scale1000) cxC5 = -1000 := by
    norm_num [x_max_without_cx, volumetric_without_cx, cx_x_min, scale1000,
      listMax, listMin, vC5, cxC5, List.filter_cons]
  have hmask : excludedMask (vC5.map scale1000) cxC5 fC5 = [true] := by
    simp only [excludedMask, fC5, List.map_cons, List.map_nil, hb, hxm]
    norm_num
  have hne : 0 < (volumetric_without_cx (vC5.map scale1000) cxC5).length := by
    norm_num [volumetric_without_cx, cx_x_min, scale1000, listMin, vC5, cxC5,
      List.filter_cons]
  constructor
  · simp only [runExcluded]
    rw [if_pos hne, hmask]
    simp [surfaceLines, writeLoop, innerTris, dirichletTris, outerTris,
      fC5, cC5, List.filter_cons, volumeLines, volume_selections]
  · norm_num [specExcludedDirichlet, scale1000, getPt, listMax, listMin,
      triBary, vC5, cxC5, List.filter_cons, decide_eq_true_eq]

/-- C5, amended: when at least one rescaled volumetric point lies strictly
below the reference surface's minimum x, the run succeeds and the label-1
group is exactly the set of boundary triangles whose barycenter
x-coordinate exceeds the maximum x over those below-minimum points.  (When
no such point exists the run instead fails, see the C9 theorem.) -/
theorem c5_amended (v : List Pt) (t : List Tet) (f : List Tri) (c : List Nat)
    (ptsCX : List Pt) (w : List ℚ)
    (h : 0 < (volumetric_without_cx (v.map scale1000) ptsCX).length) :
    runExcluded v t f c ptsCX w =
      Except.ok { points_after := v.map scale1000, cx_after := ptsCX,
                  surface := surfaceLines f c (excludedMask (v.map scale1000) ptsCX f),
                  volume := volumeLines t.length w } ∧
    dirichletTris f (excludedMask (v.map scale1000) ptsCX f) =
      f.filter fun tr =>
        decide (x_max_without_cx (v.map scale1000) ptsCX <
          (triBary (v.map scale1000) tr).x) := by
  refine ⟨?_, dirichletTris_map f _⟩
  simp only [runExcluded]
  rw [if_pos h]

/-- C5 witness: with a rescaled point at `x = -1000` below the reference
minimum, the amended characterisation evaluates on the concrete input. -/
theorem c5_amended_witness :
    dirichletTris fC5 (excludedMask (vC5.map scale1000) cxC5 fC5) =
      fC5.filter fun tr =>
        decide (x_max_without_cx (vC5.map scale1000) cxC5 <
          (triBary (vC5.map scale1000) tr).x) :=
  (c5_amended vC5 [] fC5 cC5 cxC5 []
    (by norm_num [volumetric_without_cx, cx_x_min, scale1000, listMin, vC5,
      cxC5, List.filter_cons])).2

/-- C6, counterexample.  The claim "selects as Dirichlet exactly the
boundary triangles whose barycenter lies within the x-band and above that
line" is false without a side condition on the barycenter's y: for `cxE`
(`lower_x = 7`, `upper_x = 10`, `slope = 5`, line through `(0, 0)`), the
barycenter `(8, -1, 0)` lies in the x-band and on the +x side of the line
(`0 + 5 * (-1 - 0) = -5 ≤ 8`), yet the code rejects it — dividing by the
negative denominator `-1 - 0` inverts the comparison:
`(8 - 0) / (-1 - 0) = -8 ≥ 5` is false. -/
theorem c6_counterexample :
    lower_x cxE ≤ (8 : ℚ) ∧ (8 : ℚ) ≤ ((upper_x cxE : ℤ) : ℚ) ∧
    x_at_min_y cxE + slope cxE * ((-1 : ℚ) - min_y cxE) ≤ (8 : ℚ) ∧
    extremalDirichlet cxE ⟨8, -1, 0⟩ = false := by
  norm_num [extremalDirichlet, divGE, lower_x, upper_x, slope, x_at_max_y,
    x_at_min_y, max_x, y_at_max_x, min_y, argmaxBy, argminBy, getPt, listMax,
    listMin, cxE, List.findIdx_cons, Bool.and_eq_true, decide_eq_true_eq]

/-- C6, amended: under the extremal-line policy, with the x-band
`[lower_x, upper_x]` and the line through the minimum-y point of slope
`(max_x - x_at_min_y) / (y_at_max_x - min_y)` (all derived from the
reference surface's points of maximum x, minimum y and maximum y), a
barycenter STRICTLY ABOVE the minimum y is selected iff it lies within the
x-band and on or beyond the line in the +x direction.  At `y = min_y` the
unguarded division decides by numerator sign instead (the C10 theorem),
and below `min_y` the negative denominator inverts the comparison (the C6
counterexample), so the restriction to `min_y < bc.y` is exactly what the
counterexample forces.  The hypothesis `y_at_max_x ≠ min_y` keeps the
float `slope` finite, the regime in which the rational model is
faithful. -/
theorem c6_extremal_line (pts : List Pt) (bc : Pt)
    (_hs : y_at_max_x pts ≠ min_y pts) (hy : min_y pts < bc.y) :
    extremalDirichlet pts bc = true ↔
      (lower_x pts ≤ bc.x ∧ bc.x ≤ ((upper_x pts : ℤ) : ℚ) ∧
        x_at_min_y pts + slope pts * (bc.y - min_y pts) ≤ bc.x) := by
  have hpos : 0 < bc.y - min_y pts := by linarith
  have hden : bc.y - min_y pts ≠ 0 := ne_of_gt hpos
  simp only [extremalDirichlet, Bool.and_eq_true, decide_eq_true_eq, divGE,
    if_neg hden, decide_eq_true_eq]
  constructor
  · rintro ⟨⟨h1, h2⟩, h3⟩
    refine ⟨h1, h2, ?_⟩
    have h4 := (le_div_iff₀ hpos).mp h3
    linarith
  · rintro ⟨h1, h2, h3⟩
    refine ⟨⟨h1, h2⟩, ?_⟩
    rw [le_div_iff₀ hpos]
    linarith

/-- C6 witness: for the reference surface `cxE` (`lower_x = 7`,
`upper_x = 10`, `slope = 5`), the barycenter `(8, 1, 0)` is selected. -/
theorem c6_extremal_line_witness : extremalDirichlet cxE ⟨8, 1, 0⟩ = true :=
  (c6_extremal_line cxE ⟨8, 1, 0⟩
    (by norm_num [y_at_max_x, min_y, argmaxBy, argminBy, getPt, listMax,
      listMin, cxE, List.findIdx_cons])
    (by norm_num [min_y, argminBy, getPt, listMin, cxE, List.findIdx_cons])).mpr
    (by norm_num [lower_x, upper_x, slope, x_at_max_y, x_at_min_y, max_x,
      y_at_max_x, min_y, argmaxBy, argminBy, getPt, listMax, listMin, cxE,
      List.findIdx_cons])

/-- C7: the surface label file is the three groups in order — component-1
triangles with label 2, then mask-selected triangles with label 1, then
unselected component-0 triangles with label 3 — and every line is
`<label> <i> <j> <k>` with label 1, 2 or 3. -/
theorem c7_surface_format (f : List Tri) (c : List Nat) (d : List Bool) :
    surfaceLines f c d =
      ((innerTris f c).map fun tr => fmtLine 2 tr.1 tr.2.1 tr.2.2) ++
      ((dirichletTris f d).map fun tr => fmtLine 1 tr.1 tr.2.1 tr.2.2) ++
      ((outerTris f c d).map fun tr => fmtLine 3 tr.1 tr.2.1 tr.2.2) ∧
    ∀ s ∈ surfaceLines f c d,
      ∃ lab i j k, (lab = 1 ∨ lab = 2 ∨ lab = 3) ∧ s = fmtLine lab i j k := by
  refine ⟨surfaceLines_eq f c d, ?_⟩
  intro s hs
  rw [surfaceLines_eq] at hs
  rcases List.mem_append.mp hs with hs2 | hs3
  · rcases List.mem_append.mp hs2 with hs2a | hs2b
    · rcases List.mem_map.mp hs2a with ⟨tr, _, rfl⟩
      exact ⟨2, tr.1, tr.2.1, tr.2.2, Or.inr (Or.inl rfl), rfl⟩
    · rcases List.mem_map.mp hs2b with ⟨tr, _, rfl⟩
      exact ⟨1, tr.1, tr.2.1, tr.2.2, Or.inl rfl, rfl⟩
  · rcases List.mem_map.mp hs3 with ⟨tr, _, rfl⟩
    exact ⟨3, tr.1, tr.2.1, tr.2.2, Or.inr (Or.inr rfl), rfl⟩

/-- C7 witness: for a two-triangle boundary with one inner and one selected
component-0 triangle, the file is the label-2 line then the label-1 line. -/
theorem c7_surface_format_witness :
    surfaceLines fC7 cC7 dC7 = [fmtLine 2 0 1 2, fmtLine 1 3 4 5] :=
  ((c7_surface_format fC7 cC7 dC7).1).trans (by
    simp [innerTris, dirichletTris, outerTris, fC7, cC7, dC7, List.filter_cons])

/-- C8, counterexample.  The claim "the loaded volumetric mesh is never
mutated between loading and the end of the invocation" is false for the
extremal-line (and excluded-extent) variants: `v *= 1000` rescales the
loaded point array in place, so the points at exit differ from the loaded
ones. -/
theorem c8_counterexample :
    (runExtremal vC8 [] [] cxC9).points_after ≠ vC8 := by
  norm_num [runExtremal, vC8, scale1000, Pt.mk.injEq]

/-- C8, amended: the reference surface is never mutated in any variant and
the coverage-percent variant mutates nothing; the extremal-line and
excluded-extent variants mutate the loaded volumetric points exactly once,
rescaling them in place by 1000 immediately after loading (so they are
preserved only in the degenerate case where every point is the origin),
and no further mutation occurs. -/
theorem c8_amended (v : List Pt) (t : List Tet) (f : List Tri) (c : List Nat)
    (ptsCX : List Pt) (w : List ℚ) :
    (runCoverage v t f c ptsCX w).points_after = v ∧
    (runCoverage v t f c ptsCX w).cx_after = ptsCX ∧
    (runExtremal v f c ptsCX).cx_after = ptsCX ∧
    (runExtremal v f c ptsCX).points_after = v.map scale1000 ∧
    ((runExtremal v f c ptsCX).points_after = v ↔ ∀ q ∈ v, q = ⟨0, 0, 0⟩) ∧
    (0 < (volumetric_without_cx (v.map scale1000) ptsCX).length →
      Except.map RunResult.points_after (runExcluded v t f c ptsCX w) =
          Except.ok (v.map scale1000) ∧
        Except.map RunResult.cx_after (runExcluded v t f c ptsCX w) =
          Except.ok ptsCX) := by
  refine ⟨rfl, rfl, rfl, rfl, ?_, ?_⟩
  · show v.map scale1000 = v ↔ _
    rw [map_eq_self_iff_fix]
    exact forall₂_congr fun q _ => scale1000_fix q
  · intro h
    simp only [runExcluded]
    rw [if_pos h]
    exact ⟨rfl, rfl⟩

/-- C8 witness: the coverage run leaves the points alone, the
excluded-extent run exits with the points rescaled by 1000. -/
theorem c8_amended_witness :
    (runCoverage vC5 [] fC5 cC5 cxC5 []).points_after = vC5 ∧
    Except.map RunResult.points_after (runExcluded vC5 [] fC5 cC5 cxC5 []) =
      Except.ok (vC5.map scale1000) :=
  ⟨(c8_amended vC5 [] fC5 cC5 cxC5 []).1,
    ((c8_amended vC5 [] fC5 cC5 cxC5 []).2.2.2.2.2 (by
      norm_num [volumetric_without_cx, cx_x_min, scale1000, listMin, vC5, cxC5,
        List.filter_cons])).1⟩

/-- C9: when no rescaled volumetric point has x-coordinate strictly below
the reference surface's minimum x, the exclusion mask is empty, the `else`
branch assigns nothing, and evaluating `dirichlet_selection` hits the
never-assigned `x_max_without_cx`: the excluded-extent run aborts with the
unbound-variable error before either output file is opened (no output is
produced), not with a descriptive degenerate-geometry report. -/
theorem c9_unbound_variable (v : List Pt) (t : List Tet) (f : List Tri)
    (c : List Nat) (ptsCX : List Pt) (w : List ℚ)
    (h : ∀ p ∈ v, ¬ (scale1000 p).x < cx_x_min ptsCX) :
    runExcluded v t f c ptsCX w = Except.error unboundMsg ∧
    (runExcluded v t f c ptsCX w).toOption = none := by
  have hempty : volumetric_without_cx (v.map scale1000) ptsCX = [] := by
    rw [volumetric_without_cx, List.filter_eq_nil_iff]
    intro p hp
    rcases List.mem_map.mp hp with ⟨q, hq, rfl⟩
    simpa using h q hq
  have hlen : ¬ 0 < (volumetric_without_cx (v.map scale1000) ptsCX).length := by
    rw [hempty]
    simp
  have herr : runExcluded v t f c ptsCX w = Except.error unboundMsg := by
    simp only [runExcluded]
    rw [if_neg hlen]
  exact ⟨herr, by rw [herr]; rfl⟩

/-- C9 witness: one volumetric point at `x = 1` (rescaled `1000`), which is
not below the reference minimum `0`, makes the run fail. -/
theorem c9_unbound_variable_witness :
    runExcluded vC9 [] [] [] cxC9 [] = Except.error unboundMsg :=
  (c9_unbound_variable vC9 [] [] [] cxC9 [] (by
    norm_num [vC9, cxC9, scale1000, cx_x_min, listMin])).1

/-- C10: the extremal-line selection evaluates
`(bx - x_at_min_y) / (by - min_y)` with no guard on the denominator; for a
barycenter with `by = min_y` the denominator is zero and the selection is
decided by the IEEE outcome of that division — `+inf ≥ slope` for positive
numerator, `-inf` and `0/0 = NaN` comparing false — so within the x-band
it reduces to the sign test `x_at_min_y < bx`, not a well-defined
geometric line test.  `y_at_max_x ≠ min_y` keeps `slope` finite so the
model is faithful. -/
theorem c10_zero_denominator (pts : List Pt) (bc : Pt)
    (_hs : y_at_max_x pts ≠ min_y pts) (hy : bc.y = min_y pts) :
    bc.y - min_y pts = 0 ∧
    (extremalDirichlet pts bc = true ↔
      (lower_x pts ≤ bc.x ∧ bc.x ≤ ((upper_x pts : ℤ) : ℚ) ∧
        x_at_min_y pts < bc.x)) := by
  have hden : bc.y - min_y pts = 0 := by
    rw [hy]
    ring
  refine ⟨hden, ?_⟩
  simp only [extremalDirichlet, Bool.and_eq_true, decide_eq_true_eq, divGE,
    if_pos hden, decide_eq_true_eq]
  constructor
  · rintro ⟨⟨h1, h2⟩, h3⟩
    exact ⟨h1, h2, by linarith⟩
  · rintro ⟨h1, h2, h3⟩
    exact ⟨⟨h1, h2⟩, by linarith⟩

/-- C10 witness: for `cxE` the barycenter `(8, 0, 0)` sits exactly at the
reference minimum y; the denominator is zero and the triangle is selected
by the sign of the numerator. -/
theorem c10_zero_denominator_witness : extremalDirichlet cxE ⟨8, 0, 0⟩ = true :=
  ((c10_zero_denominator cxE ⟨8, 0, 0⟩
      (by norm_num [y_at_max_x, min_y, argmaxBy, argminBy, getPt, listMax,
        listMin, cxE, List.findIdx_cons])
      (by norm_num [min_y, argminBy, getPt, listMin, cxE,
        List.findIdx_cons])).2).mpr
    (by norm_num [lower_x, upper_x, x_at_max_y, x_at_min_y, max_x, min_y,
      argmaxBy, argminBy, getPt, listMax, listMin, cxE, List.findIdx_cons])

end MeshSel
